import Mathlib

/-!
Verification of the execution-status streaming and reconciliation protocol of
the nextjs-kestra-integration repository.

The development shallowly embeds the relevant TypeScript source:

* the SSE client reconciler variant with `determineWorkflowStatus`,
  `calculateProgress`, `updateStates`, the `sse.onmessage` handler and
  `handleSSEError` (source file `src/unnamed/part_000`, a revision of
  `components/WorkflowMonitor.tsx`);
* the polling-fallback SSE client variant (source file `src/unnamed/part_001`);
* the server-side status streamer `checkStatus` of
  `src/app/api/workflow-status/route.ts`;
* the `GET` handler of `src/app/api/webhook-key/route.ts`.

React state setters are modelled as immediate sequential field updates on an
explicit view record, i.e. each event handler is a function from the view
before the event to the view after it.  JavaScript numbers are modelled as
rationals, JavaScript strings as Lean strings.
-/

namespace KestraMonitor

/-- Uppercasing as used by the TypeScript `toUpperCase()` (the state tags
are all ASCII, where the two functions agree).  Written by structural
recursion over the character list so that it evaluates by reduction. -/
def upper (s : String) : String := String.mk (s.data.map Char.toUpper)

/-- Lowercasing as used by the TypeScript `toLowerCase()`. -/
def lower (s : String) : String := String.mk (s.data.map Char.toLower)

/-- A JavaScript `state` field of an execution or task: either a bare tag
string, a structured object whose `current` field (if present) holds the tag,
or absent (`undefined`/`null`). -/
inductive StateVal where
  | str (s : String)
  | obj (current : Option String)
  | missing
deriving DecidableEq, Repr

/-- JavaScript truthiness of a `state` value: `undefined`, `null` and the
empty string are falsy, objects and non-empty strings are truthy. -/
def StateVal.truthy : StateVal → Bool
  | .str s => s ≠ ""
  | .obj _ => true
  | .missing => false

/-- `getCurrentState` from part_000: a bare string is returned as is, and
otherwise `state?.current || UNKNOWN` is returned (so an absent object, an
absent `current` field, and an empty-string `current` all give UNKNOWN). -/
def getCurrentState : StateVal → String
  | .str s => s
  | .obj (some c) => if c = "" then "UNKNOWN" else c
  | .obj none => "UNKNOWN"
  | .missing => "UNKNOWN"

/-- The client-side status enum `ExecutionStatus` of part_000. -/
inductive ExecStatus where
  | idle
  | running
  | success
  | failed
  | killed
deriving DecidableEq, Repr

/-- The client-side `ConnectionState` enum of part_000. -/
inductive ConnState where
  | disconnected
  | connecting
  | connected
  | retrying
  | completed
deriving DecidableEq, Repr

/-- The uppercase terminal execution tags. -/
def terminalTags : List String := ["SUCCESS", "FAILED", "KILLED"]

/-- The uppercase task tags treated as active. -/
def activeTags : List String := ["RUNNING", "CREATED", "RESTARTED", "PENDING"]

/-- `['success','failed','killed'].includes(status)` on the client enum. -/
def isTerminalStatus : ExecStatus → Bool
  | .success => true
  | .failed => true
  | .killed => true
  | _ => false

/-- `state.toLowerCase() as ExecutionStatus`, applied only under the guard
that `state` is one of the three uppercase terminal tags. -/
def toExecStatus (s : String) : ExecStatus :=
  if s = "SUCCESS" then .success
  else if s = "FAILED" then .failed
  else .killed

/-- A task snapshot as consumed by part_000 (`ExecutionTask`): the id and the
dual string-or-object state. -/
structure ExecutionTask where
  id : String
  state : StateVal
deriving DecidableEq, Repr

/-- An execution snapshot as consumed by part_000 (`ExecutionData`): the
out-of-band marker field `status`, the dual state, and the two optional task
lists. -/
structure ExecutionData where
  status : Option String := none
  state : StateVal := .missing
  taskRunList : Option (List ExecutionTask) := none
  tasks : Option (List ExecutionTask) := none
deriving DecidableEq, Repr

/-- `data.taskRunList || data.tasks || []` (an empty array is truthy in
JavaScript, so a present empty list is kept). -/
def extractTasks (d : ExecutionData) : List ExecutionTask :=
  match d.taskRunList with
  | some l => l
  | none =>
    match d.tasks with
    | some l => l
    | none => []

/-- `calculateProgress` from part_000, lines 69 to 100.  Empty task lists are
handled first; terminal execution states give 100; otherwise the weighted sum
of task states is taken, capped at 99 exactly when the uppercased execution
state is RUNNING. -/
def calculateProgress (tasks : List ExecutionTask) (execState : String) : ℚ :=
  if tasks.length = 0 then 0
  else
    let stateStr := upper execState
    if stateStr ∈ terminalTags then 100
    else
      let taskStates := tasks.map (fun t => upper (getCurrentState t.state))
      let completedCount := (taskStates.filter (fun s => s ∈ terminalTags)).length
      let runningCount := (taskStates.filter (fun s => s = "RUNNING")).length
      let pendingCount :=
        (taskStates.filter (fun s => s ∈ ["CREATED", "PENDING", "RESTARTED"])).length
      let totalWeight : ℚ := tasks.length
      let currentWeight : ℚ := completedCount + runningCount * 0.5 + pendingCount * 0.1
      let calculatedProgress := currentWeight / totalWeight * 100
      if stateStr = "RUNNING" then min calculatedProgress 99 else calculatedProgress

/-- `determineWorkflowStatus` from part_000, lines 102 to 157.  The
`setShouldKeepProgress` calls of the source are omitted: that React state is
written but never read anywhere in the component, so it has no observable
effect.  `hasExecutionId` stands for the truthiness of the `executionId`
prop captured by the closure. -/
def determineWorkflowStatus (workflowState : String) (tasks : List ExecutionTask)
    (currentStatus : ExecStatus) (hasExecutionId : Bool) : ExecStatus :=
  let state := upper workflowState
  if state ∈ terminalTags then toExecStatus state
  else if tasks.length > 0 then
    let taskStates := tasks.map (fun t => upper (getCurrentState t.state))
    let hasActiveTask := taskStates.any (fun s => decide (s ∈ activeTags))
    if hasActiveTask then .running
    else
      let allTasksCompleted := taskStates.all (fun s => decide (s ∈ terminalTags))
      if allTasksCompleted then
        let hasFailedTask := taskStates.any (fun s => decide (s ∈ ["FAILED", "KILLED"]))
        let allTasksSuccessful := taskStates.all (fun s => s = "SUCCESS")
        if allTasksSuccessful then .success
        else if hasFailedTask then .failed
        else .running
      else .running
  else if state ∈ activeTags then .running
  else if currentStatus = .running ∧ hasExecutionId then .running
  else .idle

/-- Error messages surfaced by the two client variants, abstracted to their
kind (the exact wording is irrelevant to the verified properties; the payload
of `reconnectMsg` records the announced delay in milliseconds and the attempt
number printed in the message). -/
inductive ErrorMsg where
  | reconnectMsg (delayMs : ℚ) (attempt : Nat)
  | tryAgainMsg
  | parseErrorMsg
  | genericMsg
deriving DecidableEq, Repr

/-- The React state of part_000 that the verified handlers read and write.
`hasExecutionId` models the truthiness of the `executionId` prop,
`sseOpen` whether the `EventSource` held in `eventSourceRef` is open, and
`retryTimerSet` whether a reconnect timeout is pending. -/
structure MonitorView where
  status : ExecStatus
  progress : ℚ
  connectionState : ConnState
  executionData : Option ExecutionData
  error : Option ErrorMsg
  retryCount : Nat
  hasExecutionId : Bool
  sseOpen : Bool
  retryTimerSet : Bool
deriving DecidableEq, Repr

/-- `updateStates` from part_000, lines 159 to 187: the transition to idle is
suppressed while an execution id and data are present and there is progress;
terminal statuses pin progress to 100; a completed connection with a terminal
status keeps the existing progress. -/
def updateStates (v : MonitorView) (newStatus : ExecStatus) (newProgress : ℚ)
    (newConnectionState : ConnState) : MonitorView :=
  if newStatus = .idle ∧ v.hasExecutionId ∧ v.executionData.isSome ∧
      v.status ≠ .idle ∧ v.progress > 0 then
    { v with connectionState := newConnectionState }
  else
    let finalProgress :=
      if isTerminalStatus newStatus then (100 : ℚ)
      else if v.connectionState = .completed ∧ isTerminalStatus v.status then v.progress
      else newProgress
    { v with status := newStatus, progress := finalProgress,
             connectionState := newConnectionState }

/-- `cleanupConnection` from part_000, lines 190 to 204: close the event
source, clear the retry timer, and reset progress to 0 unless the status is
terminal. -/
def cleanupConnection (v : MonitorView) : MonitorView :=
  if isTerminalStatus v.status then
    { v with sseOpen := false, retryTimerSet := false }
  else
    { v with sseOpen := false, retryTimerSet := false, progress := 0 }

/-- The `sse.onmessage` handler of part_000, lines 240 to 319, on a
successfully parsed frame (the catch branch is `onParseFailure` below).
Follows the source statement by statement. -/
def onMessage (v : MonitorView) (d : ExecutionData) : MonitorView :=
  let v := { v with executionData := some d, error := none }
  let tasks := extractTasks d
  let workflowState := getCurrentState d.state
  let currentWorkflowState := upper workflowState
  if d.status = some "stream_ended" ∨ currentWorkflowState = "NONE" then
    if isTerminalStatus v.status then
      cleanupConnection { v with connectionState := .completed }
    else
      let taskStates := tasks.map (fun t => upper (getCurrentState t.state))
      let hasRunningTasks := taskStates.any (fun s => decide (s ∈ activeTags))
      let allTasksSuccessful := taskStates.all (fun s => s = "SUCCESS")
      let hasFailedTasks := taskStates.any (fun s => decide (s ∈ ["FAILED", "KILLED"]))
      let v :=
        if ¬hasRunningTasks then
          if allTasksSuccessful then updateStates v .success 100 .completed
          else if hasFailedTasks then updateStates v .failed 100 .completed
          else { v with connectionState := .completed }
        else v
      cleanupConnection v
  else if d.status = some "connected" ∧ ¬d.state.truthy then v
  else
    let newStatus := determineWorkflowStatus workflowState tasks v.status v.hasExecutionId
    let calculatedProgress := calculateProgress tasks workflowState
    if isTerminalStatus newStatus then
      cleanupConnection (updateStates v newStatus 100 .completed)
    else if newStatus = .running ∨ (tasks.length > 0 ∧ currentWorkflowState ≠ "IDLE") then
      updateStates v newStatus calculatedProgress .connected
    else
      updateStates v newStatus calculatedProgress v.connectionState

/-- The kind of error delivered to `handleSSEError`: `http2` covers errors
whose message contains ERR_HTTP2_PROTOCOL_ERROR or whose target event source
is already closed; everything else (including JSON parse failures) is
`generic`. -/
inductive ErrKind where
  | http2
  | generic
deriving DecidableEq, Repr

/-- The outcome of one `handleSSEError` call of part_000: the updated view,
the delay in milliseconds of the reconnect attempt it schedules (none when no
reconnect is scheduled), and whether the one-shot `checkWorkflowStatus` fetch
of the fallback endpoint is started. -/
structure ErrStep where
  view : MonitorView
  retryDelayMs : Option ℚ
  statusFetchStarted : Bool
deriving DecidableEq, Repr

/-- `MAX_RETRY_ATTEMPTS` of part_000. -/
def MAX_RETRY_ATTEMPTS : Nat := 5

/-- `BASE_RETRY_DELAY` of part_000, in milliseconds. -/
def BASE_RETRY_DELAY : ℚ := 1000

/-- `handleSSEError` from part_000, lines 332 to 371.  The view is first
cleaned up; idle or terminal statuses complete the connection without retry;
a completed connection ends silently; an http2-style error with no prior
retries is retried after 100 milliseconds; otherwise up to
`MAX_RETRY_ATTEMPTS` reconnects are scheduled with exponential backoff
`BASE_RETRY_DELAY * 2 ^ retryCount`, and exhaustion disconnects and starts
the one-shot status fetch. -/
def handleSSEError (v : MonitorView) (k : ErrKind) : ErrStep :=
  let v := cleanupConnection v
  if v.status = .idle ∨ isTerminalStatus v.status then
    { view := updateStates v v.status (if v.status = .idle then 0 else 100) .completed,
      retryDelayMs := none, statusFetchStarted := false }
  else if v.connectionState = .completed then
    { view := v, retryDelayMs := none, statusFetchStarted := false }
  else if k = .http2 ∧ v.retryCount = 0 then
    let v2 := { v with retryCount := v.retryCount + 1 }
    { view := v2, retryDelayMs := some 100, statusFetchStarted := false }
  else if v.retryCount < MAX_RETRY_ATTEMPTS then
    let delay := BASE_RETRY_DELAY * 2 ^ v.retryCount
    let v2 := { v with connectionState := ConnState.retrying,
                       error := some (.reconnectMsg delay (v.retryCount + 1)),
                       retryTimerSet := true, retryCount := v.retryCount + 1 }
    { view := v2, retryDelayMs := some delay, statusFetchStarted := false }
  else
    let v2 := { v with connectionState := ConnState.disconnected }
    { view := v2, retryDelayMs := none, statusFetchStarted := true }

/-- The catch branch of the `sse.onmessage` handler of part_000, lines 315 to
318: a malformed frame is logged and routed to `handleSSEError` (a JSON parse
error never matches the http2 pattern). -/
def onParseFailure (v : MonitorView) : ErrStep :=
  handleSSEError v .generic

/-! ## The polling-fallback client variant (src/unnamed/part_001)

In this revision the execution state is a plain string and the view keeps a
separate `parsingError`.  `StreamState` is its connection enum. -/

/-- The `StreamState` enum of part_001. -/
inductive StreamState where
  | connecting
  | openState
  | closed
  | errorState
  | completed
deriving DecidableEq, Repr

/-- A task as consumed by part_001: `state` is a plain string. -/
structure TaskB where
  id : String
  state : String
deriving DecidableEq, Repr

/-- An execution snapshot as consumed by part_001 (`ExecutionData`): `state`
may be absent on marker frames, `tasks` may be absent, and the two boolean
flags mirror the optional `finalUpdate` and `retrySuccess` fields (absent
fields are falsy). -/
structure ExecutionDataB where
  state : Option String := none
  tasks : Option (List TaskB) := none
  finalUpdate : Bool := false
  retrySuccess : Bool := false
deriving DecidableEq, Repr

/-- JavaScript truthiness of the optional `state` string of part_001. -/
def truthyStr : Option String → Bool
  | none => false
  | some s => s ≠ ""

/-- The React state of part_001 that the verified handlers read and write.
`status` is the raw lower-cased string the source keeps. -/
structure MonitorViewB where
  status : String
  progress : ℚ
  parsingError : Option ErrorMsg
  error : Option ErrorMsg
  streamState : StreamState
  reconnectAttempt : Nat
  sseOpen : Bool
  executionData : Option ExecutionDataB
deriving DecidableEq, Repr

/-- The lower-case terminal tags of part_001. -/
def terminalTagsLower : List String := ["success", "failed", "killed"]

/-- The `sse.onmessage` handler of part_001, lines 150 to 206, on a
successfully parsed frame.  Follows the source statement by statement:
a terminal state completes the stream and pins progress to 100; a
`finalUpdate` flag pins progress to 100; task-bearing snapshots recompute
progress as the completed-task fraction; task-less snapshots nudge progress
by 5, capped at 90. -/
def onMessageB (v : MonitorViewB) (d : ExecutionDataB) : MonitorViewB :=
  let v := if d.retrySuccess then { v with error := none } else v
  let v := { v with executionData := some d, parsingError := none }
  let step2 (v : MonitorViewB) : MonitorViewB :=
    if d.finalUpdate then { v with progress := 100 }
    else
      match d.tasks with
      | some ts =>
        if ts.length > 0 then
          let totalTasks : ℚ := ts.length
          let completedTasks : ℚ :=
            (ts.filter (fun t => upper t.state ∈ terminalTags)).length
          { v with progress := completedTasks / totalTasks * 100 }
        else { v with progress := min (v.progress + 5) 90 }
      | none => { v with progress := min (v.progress + 5) 90 }
  if truthyStr d.state then
    let stateStr := lower ((d.state).getD "")
    let v := { v with status := stateStr }
    if stateStr ∈ terminalTagsLower then
      { v with streamState := .completed, progress := 100, sseOpen := false }
    else step2 v
  else step2 v

/-- The catch branch of the `sse.onmessage` handler of part_001, lines 207 to
215: the parse failure is logged, `parsingError` is set, progress is nudged
by 2 capped at 90, and the event source is left untouched. -/
def onParseFailureB (v : MonitorViewB) : MonitorViewB :=
  { v with parsingError := some .parseErrorMsg,
           progress := min (v.progress + 2) 90 }

/-- The polling-fallback effect of part_001, lines 114 to 135: the 5-second
`refreshStatus` interval is installed exactly when an execution id is set,
the stream state is `error` or `closed`, and the status is neither idle nor
terminal.  Returns the polling interval in milliseconds when installed. -/
def pollFallbackTimer (hasExecutionId : Bool) (streamState : StreamState)
    (status : String) : Option ℚ :=
  if hasExecutionId ∧ (streamState = .errorState ∨ streamState = .closed) ∧
      status ≠ "idle" ∧ status ∉ terminalTagsLower then
    some 5000
  else none

/-! ## The status streamer (src/app/api/workflow-status/route.ts)

The poll loop is embedded one iteration at a time: `checkStatus` maps the
result of one engine fetch (`none` models a network failure or non-ok
response) to the list of frames pushed on the SSE channel and the action the
iteration takes next. -/

/-- `String(x)` on a state value: a bare string is itself, an object
stringifies to its default object form, absent values stringify to the text
undefined. -/
def jsStringOfState : StateVal → String
  | .str s => s
  | .obj _ => "[object Object]"
  | .missing => "undefined"

/-- `String(x || RUNNING)`: falsy states (absent, empty string) default to
RUNNING before stringification; an object is truthy and stringifies to its
default object form, not to its `current` field. -/
def normalizeStateJS (x : StateVal) : String :=
  if x.truthy then jsStringOfState x else "RUNNING"

/-- A task of the engine response as read by the route (runtime value; the
state may arrive in either representation). -/
structure KestraTaskS where
  id : String
  state : StateVal
deriving DecidableEq, Repr

/-- An engine execution document as read by the route. -/
structure KestraExecutionS where
  id : String
  state : StateVal
  tasks : Option (List KestraTaskS) := none
deriving DecidableEq, Repr

/-- A task of the normalized snapshot pushed to the client. -/
structure FormattedTask where
  id : String
  state : String
deriving DecidableEq, Repr

/-- The normalized snapshot pushed to the client. -/
structure FormattedData where
  id : String
  state : String
  tasks : List FormattedTask
deriving DecidableEq, Repr

/-- The `formattedData` construction of the route, lines 93 to 100: the
execution state and every task state go through `String(x || RUNNING)`, and
an absent task list becomes the empty list. -/
def formatExecution (e : KestraExecutionS) : FormattedData :=
  { id := e.id,
    state := normalizeStateJS e.state,
    tasks := (e.tasks.getD []).map
      (fun t => { id := t.id, state := normalizeStateJS t.state }) }

/-- One frame pushed on the SSE channel.  The `finalUpdate` flag on a
snapshot frame records whether the pushed JSON object carries
`finalUpdate: true` (the current route never sets it; the constructor
`retryingEvent` likewise exists in the wire vocabulary of the spec but is
never emitted by the current route). -/
inductive StreamEvent where
  | connectedEvent
  | snapshotEvent (d : FormattedData) (finalUpdate : Bool)
  | retryingEvent (retryCount maxRetries : Nat) (delayMs : ℚ)
  | fetchErrorEvent
deriving DecidableEq, Repr

/-- What one poll-loop iteration does after pushing its frames. -/
inductive StreamNext where
  | closeNow
  | closeAfter (ms : ℚ)
  | pollAfter (ms : ℚ)
  | retryAfter (ms : ℚ) (nextRetryCount : Nat)
deriving DecidableEq, Repr

/-- `checkStatus` of the route, lines 76 to 122, as one poll-loop iteration.
A failed fetch (network error or non-ok response, modelled as `none`) pushes
a single error frame and closes the stream at once; a successful fetch
pushes the normalized snapshot, then closes at once if `String(state)` (the
raw, non-defaulted stringification) is terminal, and otherwise schedules the
next poll after 1000 milliseconds. -/
def checkStatus (fetched : Option KestraExecutionS) : List StreamEvent × StreamNext :=
  match fetched with
  | none => ([.fetchErrorEvent], .closeNow)
  | some e =>
    let formattedData := formatExecution e
    if jsStringOfState e.state ∈ terminalTags then
      ([.snapshotEvent formattedData false], .closeNow)
    else
      ([.snapshotEvent formattedData false], .pollAfter 1000)

/-! ## The webhook-key endpoint (src/app/api/webhook-key/route.ts) -/

/-- The response of the webhook-key `GET` handler: HTTP status and the `key`
field of the JSON body. -/
structure WebhookKeyResponse where
  httpStatus : Nat
  key : String
deriving DecidableEq, Repr

/-- The `GET` handler, lines 3 to 9: unconditionally a 200 JSON response
whose `key` field is `process.env.KESTRA_WEBHOOK_KEY || \x27\x27` (the
environment value, or the empty string when the variable is unset or
empty). -/
def webhookKeyGET (envKey : Option String) : WebhookKeyResponse :=
  { httpStatus := 200,
    key := match envKey with
      | none => ""
      | some s => if s = "" then "" else s }

/-! ## Specification-side status derivation

`deriveStatusSpec` is written from the words of the specification (its
`deriveStatus` case list), independently of the source structure, to be
compared with `determineWorkflowStatus`. -/

/-- The `deriveStatus` operation exactly as the specification lists its
cases: terminal execState lower-cased; else any active task gives running;
else non-empty all-terminal tasks give success iff all SUCCESS and failed
otherwise; else non-empty mixed tasks give running; else an active execState
gives running; else a previous running status with an execution id set gives
running; otherwise idle. -/
def deriveStatusSpec (execState : String) (tasks : List ExecutionTask)
    (previousStatus : ExecStatus) (hasExecutionId : Bool) : ExecStatus :=
  let st := upper execState
  let taskStates := tasks.map (fun t => upper (getCurrentState t.state))
  if st ∈ terminalTags then toExecStatus st
  else if taskStates.any (fun s => decide (s ∈ activeTags)) then .running
  else if tasks ≠ [] ∧ taskStates.all (fun s => decide (s ∈ terminalTags)) then
    if taskStates.all (fun s => s = "SUCCESS") then .success else .failed
  else if tasks ≠ [] then .running
  else if st ∈ activeTags then .running
  else if previousStatus = .running ∧ hasExecutionId then .running
  else .idle

/-! ## Shared helper lemmas -/

/-- `cleanupConnection` only touches the connection resources and possibly
the progress; every other field of the view is preserved. -/
theorem cleanupConnection_preserves (v : MonitorView) :
    (cleanupConnection v).status = v.status ∧
    (cleanupConnection v).connectionState = v.connectionState ∧
    (cleanupConnection v).retryCount = v.retryCount ∧
    (cleanupConnection v).hasExecutionId = v.hasExecutionId ∧
    (cleanupConnection v).executionData = v.executionData ∧
    (cleanupConnection v).error = v.error := by
  unfold cleanupConnection
  split <;> exact ⟨rfl, rfl, rfl, rfl, rfl, rfl⟩

/-- `cleanupConnection` keeps the progress of a view whose status is
terminal. -/
theorem cleanupConnection_progress_of_terminal (v : MonitorView)
    (h : isTerminalStatus v.status = true) :
    (cleanupConnection v).progress = v.progress := by
  unfold cleanupConnection
  simp [h]

/-- `updateStates` at a terminal new status never takes the idle guard and
pins the progress to 100. -/
theorem updateStates_terminal (v : MonitorView) (ns : ExecStatus) (p : ℚ)
    (cs : ConnState) (h : isTerminalStatus ns = true) :
    (updateStates v ns p cs).status = ns ∧
    (updateStates v ns p cs).progress = 100 ∧
    (updateStates v ns p cs).connectionState = cs := by
  have hne : ns ≠ .idle := by
    intro he
    rw [he] at h
    simp [isTerminalStatus] at h
  unfold updateStates
  split
  · rename_i hg
    exact absurd hg.1 hne
  · simp [h]

/-- `updateStates` with a non-idle new status always assigns it. -/
theorem updateStates_status_of_ne_idle (v : MonitorView) (ns : ExecStatus)
    (p : ℚ) (cs : ConnState) (h : ns ≠ .idle) :
    (updateStates v ns p cs).status = ns := by
  unfold updateStates
  split
  · rename_i hg
    exact absurd hg.1 h
  · simp

/-- `updateStates` on a view that is terminal with a completed connection
never moves the progress away from its current value. -/
theorem updateStates_progress_frozen (v : MonitorView) (ns : ExecStatus)
    (p : ℚ) (cs : ConnState) (hcs : v.connectionState = .completed)
    (hst : isTerminalStatus v.status = true) :
    (updateStates v ns p cs).progress = if isTerminalStatus ns then 100 else v.progress := by
  unfold updateStates
  split
  · rename_i hg
    have hnt : isTerminalStatus ns = false := by
      rw [hg.1]
      rfl
    simp [hnt]
  · cases hterm : isTerminalStatus ns <;> simp [hterm, hcs, hst]

/-- The status after `updateStates` is either the requested one or the
unchanged old one (when the idle guard fires), and in the latter case the
progress is also unchanged. -/
theorem updateStates_status_cases (v : MonitorView) (ns : ExecStatus) (p : ℚ)
    (cs : ConnState) :
    (updateStates v ns p cs).status = ns ∨
    ((updateStates v ns p cs).status = v.status ∧
      (updateStates v ns p cs).progress = v.progress) := by
  unfold updateStates
  split
  · exact Or.inr ⟨rfl, rfl⟩
  · exact Or.inl rfl

/-! ## Claim C10 -/

/-- Claim C10: for every environment, the webhook-key endpoint
unconditionally returns HTTP 200 with body key equal to the configured
KESTRA_WEBHOOK_KEY value, or the empty string when it is unset: the trigger
key is disclosed with no authentication and no error branch. -/
theorem c10_webhook_key_disclosed (envKey : Option String) :
    (webhookKeyGET envKey).httpStatus = 200 ∧
    (webhookKeyGET envKey).key = envKey.getD "" := by
  refine ⟨rfl, ?_⟩
  cases envKey with
  | none => rfl
  | some s =>
    by_cases h : s = "" <;> simp [webhookKeyGET, h]

/-! ## Claim C2 -/

/-- Claim C2 counterexample: with an empty task list and the terminal
execution state SUCCESS, `calculateProgress` returns 0, not the 100 the
claim requires for every terminal state regardless of the tasks (the
empty-task early return precedes the terminal-state check). -/
theorem c2_counterexample :
    calculateProgress [] "SUCCESS" = 0 ∧ (0 : ℚ) ≠ 100 := by
  exact ⟨rfl, by norm_num⟩

/-- Claim C2 as amended: `calculateProgress` returns 0 for an empty task
list even when the execution state is terminal; for non-empty tasks it
returns 100 whenever the uppercased execution state is terminal, and
otherwise the weighted ratio (completed 1.0, running 0.5,
pending/created/restarted 0.1) scaled to 100, capped at 99 exactly when the
uppercased execution state is RUNNING; under that cap it never exceeds
99. -/
theorem c2_amended_progress (tasks : List ExecutionTask) (execState : String) :
    (tasks = [] → calculateProgress tasks execState = 0) ∧
    (tasks ≠ [] → upper execState ∈ terminalTags →
      calculateProgress tasks execState = 100) ∧
    (tasks ≠ [] → upper execState ∉ terminalTags →
      calculateProgress tasks execState =
        (let states := tasks.map (fun t => upper (getCurrentState t.state))
         let w : ℚ := (states.countP (fun s => decide (s ∈ terminalTags)) : ℚ) +
           (states.countP (fun s => decide (s = "RUNNING")) : ℚ) * 0.5 +
           (states.countP (fun s => decide (s ∈ ["CREATED", "PENDING", "RESTARTED"])) : ℚ) * 0.1
         let raw := w / (tasks.length : ℚ) * 100
         if upper execState = "RUNNING" then min raw 99 else raw)) ∧
    (upper execState = "RUNNING" → calculateProgress tasks execState ≤ 99) := by
  have hcount : ∀ (l : List String) (p : String → Bool),
      ((l.filter p).length : ℚ) = (l.countP p : ℚ) := by
    intro l p
    rw [List.countP_eq_length_filter]
  refine ⟨?_, ?_, ?_, ?_⟩
  · intro h
    simp [calculateProgress, h]
  · intro hne hterm
    have hlen : ¬tasks.length = 0 := by simpa using hne
    simp [calculateProgress, hlen, hterm]
  · intro hne hterm
    have hlen : ¬tasks.length = 0 := by simpa using hne
    simp only [calculateProgress, hlen, if_false, hterm, hcount]
  · intro hrun
    have hterm : upper execState ∉ terminalTags := by
      rw [hrun]
      decide
    by_cases hlen : tasks.length = 0
    · simp [calculateProgress, hlen]
    · simp only [calculateProgress, hlen, if_false, hterm, hrun, if_true]
      exact min_le_right _ _

/-- Witness for the amended C2: a concrete non-empty terminal run reaches
100, and the empty-task branch returns 0. -/
theorem c2_amended_progress_witness :
    calculateProgress [{ id := "t1", state := .str "SUCCESS" }] "SUCCESS" = 100 ∧
    calculateProgress [] "SUCCESS" = 0 := by
  refine ⟨?_, ?_⟩
  · exact (c2_amended_progress [{ id := "t1", state := .str "SUCCESS" }] "SUCCESS").2.1
      (by decide) (by decide)
  · exact (c2_amended_progress [] "SUCCESS").1 rfl

/-! ## Claim C5 -/

/-- Claim C5 counterexample: a structured execution state carrying
current = SUCCESS is not reduced to the bare tag by the route; it is
stringified to the default object form, so the pushed snapshot does not
carry the bare tag the claim requires. -/
theorem c5_counterexample :
    (formatExecution { id := "e1", state := .obj (some "SUCCESS") }).state =
      "[object Object]" ∧
    (formatExecution { id := "e1", state := .obj (some "SUCCESS") }).state ≠
      "SUCCESS" := by
  exact ⟨rfl, by decide⟩

/-- Claim C5 as amended: the route coerces the execution state and every
task state with JavaScript String conversion after defaulting falsy values:
a non-empty bare tag passes through unchanged, a missing or empty state
becomes RUNNING, and a structured value is not reduced to its current field
but stringifies to the default object form; a missing task list defaults to
the empty sequence, and each present task is kept with the same coercion of
its state. -/
theorem c5_amended_normalization (e : KestraExecutionS) :
    (∀ s, e.state = .str s → s ≠ "" → (formatExecution e).state = s) ∧
    ((e.state = .missing ∨ e.state = .str "") → (formatExecution e).state = "RUNNING") ∧
    (∀ c, e.state = .obj c → (formatExecution e).state = "[object Object]") ∧
    (e.tasks = none → (formatExecution e).tasks = []) ∧
    ((formatExecution e).tasks.length = (e.tasks.getD []).length) ∧
    (∀ i (h1 : i < (formatExecution e).tasks.length)
        (h2 : i < (e.tasks.getD []).length),
      ((formatExecution e).tasks.get ⟨i, h1⟩).id =
          ((e.tasks.getD []).get ⟨i, h2⟩).id ∧
      ((formatExecution e).tasks.get ⟨i, h1⟩).state =
          normalizeStateJS ((e.tasks.getD []).get ⟨i, h2⟩).state) := by
  refine ⟨?_, ?_, ?_, ?_, ?_, ?_⟩
  · intro s hs hne
    simp [formatExecution, hs, normalizeStateJS, jsStringOfState, StateVal.truthy, hne]
  · intro h
    rcases h with h | h <;>
      simp [formatExecution, h, normalizeStateJS, StateVal.truthy]
  · intro c hc
    simp [formatExecution, hc, normalizeStateJS, jsStringOfState, StateVal.truthy]
  · intro h
    simp [formatExecution, h]
  · simp [formatExecution]
  · intro i h1 h2
    simp [formatExecution]

/-- Witness for the amended C5 at a concrete execution with a bare tag and
one structured task. -/
theorem c5_amended_normalization_witness :
    (formatExecution
      { id := "e1", state := .str "RUNNING",
        tasks := some [{ id := "t1", state := .obj (some "RUNNING") }] }).state =
      "RUNNING" := by
  exact (c5_amended_normalization
    { id := "e1", state := .str "RUNNING",
      tasks := some [{ id := "t1", state := .obj (some "RUNNING") }] }).1
    "RUNNING" rfl (by decide)

/-! ## Claim C4 -/

/-- Claim C4 counterexample: the first fetch failure of the poll loop pushes
a single terminal error frame and closes the channel at once, so no
backoff retry happens, no retrying event carrying an attempt count is ever
pushed, and the error event is not preceded by any retry. -/
theorem c4_counterexample :
    checkStatus none = ([.fetchErrorEvent], .closeNow) := by
  rfl

/-- Claim C4 as amended: on a poll-loop fetch failure the streamer attempts
no retry at all: it pushes exactly one terminal error frame and closes the
channel immediately; no iteration of the loop ever emits a retrying status
event or schedules a retry. -/
theorem c4_amended_no_retry (fetched : Option KestraExecutionS) :
    (fetched = none → checkStatus fetched = ([.fetchErrorEvent], .closeNow)) ∧
    (∀ ev ∈ (checkStatus fetched).1, ∀ rc mr dl, ev ≠ .retryingEvent rc mr dl) ∧
    (∀ ms n, (checkStatus fetched).2 ≠ .retryAfter ms n) := by
  refine ⟨?_, ?_, ?_⟩
  · intro h
    rw [h]
    rfl
  · intro ev hev rc mr dl
    cases fetched with
    | none =>
      simp [checkStatus] at hev
      simp [hev]
    | some e =>
      simp only [checkStatus] at hev
      split at hev <;> simp at hev <;> simp [hev]
  · intro ms n
    cases fetched with
    | none => simp [checkStatus]
    | some e =>
      simp only [checkStatus]
      split <;> simp

/-- Witness for the amended C4 at the concrete failing fetch. -/
theorem c4_amended_no_retry_witness :
    checkStatus none = ([.fetchErrorEvent], .closeNow) := by
  exact (c4_amended_no_retry none).1 rfl

/-! ## Claim C7 -/

/-- Claim C7 counterexample: on a terminal snapshot the route pushes the
snapshot with no finalUpdate flag and closes the channel at once, with no
grace delay. -/
theorem c7_counterexample :
    checkStatus (some { id := "e1", state := .str "SUCCESS" }) =
      ([.snapshotEvent { id := "e1", state := "SUCCESS", tasks := [] } false],
        .closeNow) := by
  rfl

/-- Claim C7 as amended: whenever the normalized execution state is
terminal, the route pushes the single normalized snapshot, never flagged
finalUpdate, and closes the channel immediately rather than after a grace
delay. -/
theorem c7_amended_terminal_close (e : KestraExecutionS)
    (h : normalizeStateJS e.state ∈ terminalTags) :
    checkStatus (some e) =
      ([.snapshotEvent (formatExecution e) false], .closeNow) ∧
    (∀ d, StreamEvent.snapshotEvent d true ∉ (checkStatus (some e)).1) := by
  have hraw : jsStringOfState e.state ∈ terminalTags := by
    unfold normalizeStateJS at h
    split at h
    · exact h
    · exact absurd h (by decide)
  constructor
  · simp [checkStatus, hraw]
  · intro d
    simp [checkStatus, hraw]

/-- Witness for the amended C7 at a concrete terminal snapshot. -/
theorem c7_amended_terminal_close_witness :
    checkStatus (some { id := "e1", state := .str "FAILED" }) =
      ([.snapshotEvent { id := "e1", state := "FAILED", tasks := [] } false],
        .closeNow) := by
  exact (c7_amended_terminal_close { id := "e1", state := .str "FAILED" }
    (by decide)).1

/-! ## Claim C9 -/

/-- A pushed snapshot of the polling-fallback variant that is non-terminal,
carries no finalUpdate flag, and contains no tasks. -/
def tasklessNonTerminal (d : ExecutionDataB) : Prop :=
  (truthyStr d.state = false ∨ lower ((d.state).getD "") ∉ terminalTagsLower) ∧
  d.finalUpdate = false ∧
  (d.tasks = none ∨ d.tasks = some [])

instance (d : ExecutionDataB) : Decidable (tasklessNonTerminal d) := by
  unfold tasklessNonTerminal
  infer_instance

/-- On a taskless non-terminal snapshot the part_001 handler sets the
progress to exactly min (progress + 5) 90. -/
theorem onMessageB_taskless (v : MonitorViewB) (d : ExecutionDataB)
    (h : tasklessNonTerminal d) :
    (onMessageB v d).progress = min (v.progress + 5) 90 := by
  obtain ⟨hstate, hfinal, htasks⟩ := h
  unfold onMessageB
  by_cases htr : truthyStr d.state = true
  · have h2 : lower ((d.state).getD "") ∉ terminalTagsLower := by
      rcases hstate with hs | hs
      · rw [htr] at hs
        exact absurd hs (by simp)
      · exact hs
    rcases htasks with ht | ht <;>
      cases hrs : d.retrySuccess <;>
        simp [htr, h2, hfinal, ht, hrs]
  · simp only [Bool.not_eq_true] at htr
    rcases htasks with ht | ht <;>
      cases hrs : d.retrySuccess <;>
        simp [htr, hfinal, ht, hrs]

/-- Folding the handler over taskless non-terminal snapshots keeps the
progress at or below 90 once it is there. -/
theorem onMessageB_taskless_fold (ds : List ExecutionDataB) (v : MonitorViewB)
    (hv : v.progress ≤ 90) (hds : ∀ d ∈ ds, tasklessNonTerminal d) :
    (ds.foldl onMessageB v).progress ≤ 90 := by
  induction ds generalizing v with
  | nil => exact hv
  | cons d ds ih =>
    simp only [List.foldl_cons]
    refine ih (onMessageB v d) ?_ (fun x hx => hds x (List.mem_cons_of_mem _ hx))
    rw [onMessageB_taskless v d (hds d (List.mem_cons_self _ _))]
    exact min_le_right _ _

/-- Claim C9: in the polling-fallback variant, a non-terminal snapshot with
no tasks and no finalUpdate flag raises progress by at most 5 and never
above 90, and a non-empty sequence of such snapshots leaves progress at or
below 90. -/
theorem c9_taskless_progress_bound (v : MonitorViewB) (d : ExecutionDataB)
    (h : tasklessNonTerminal d) :
    ((onMessageB v d).progress ≤ v.progress + 5 ∧ (onMessageB v d).progress ≤ 90) ∧
    (∀ ds : List ExecutionDataB, (∀ x ∈ ds, tasklessNonTerminal x) →
      ((d :: ds).foldl onMessageB v).progress ≤ 90) := by
  have hstep := onMessageB_taskless v d h
  refine ⟨⟨?_, ?_⟩, ?_⟩
  · rw [hstep]
    exact min_le_left _ _
  · rw [hstep]
    exact min_le_right _ _
  · intro ds hds
    simp only [List.foldl_cons]
    refine onMessageB_taskless_fold ds (onMessageB v d) ?_ hds
    rw [hstep]
    exact min_le_right _ _

/-- A concrete part_001 view used to instantiate the C9 theorem. -/
def c9View : MonitorViewB :=
  { status := "running", progress := 88, parsingError := none, error := none,
    streamState := .openState, reconnectAttempt := 0, sseOpen := true,
    executionData := none }

/-- A concrete taskless non-terminal snapshot used to instantiate the C9
theorem. -/
def c9Snap : ExecutionDataB := { state := some "RUNNING" }

/-- A second concrete taskless snapshot (a bare marker with no state). -/
def c9Snap2 : ExecutionDataB := {}

/-- Witness for C9 at the concrete view with progress 88: one taskless
frame keeps progress at or below both 93 and 90, and a two-frame sequence
stays at or below 90. -/
theorem c9_taskless_progress_bound_witness :
    ((onMessageB c9View c9Snap).progress ≤ c9View.progress + 5 ∧
      (onMessageB c9View c9Snap).progress ≤ 90) ∧
    (([c9Snap, c9Snap2].foldl onMessageB c9View).progress ≤ 90) := by
  have h := c9_taskless_progress_bound c9View c9Snap (by decide)
  exact ⟨h.1, h.2 [c9Snap2] (by decide)⟩

/-! ## Claim C3 -/

/-- A list of uppercase task states that are all terminal but not all
SUCCESS necessarily contains FAILED or KILLED. -/
theorem terminal_not_success_has_failed (l : List String)
    (hall : l.all (fun s => decide (s ∈ terminalTags)) = true)
    (hsucc : ¬l.all (fun s => decide (s = "SUCCESS")) = true) :
    l.any (fun s => decide (s ∈ ["FAILED", "KILLED"])) = true := by
  simp only [List.all_eq_true, decide_eq_true_eq] at hall hsucc
  simp only [List.any_eq_true, decide_eq_true_eq]
  push_neg at hsucc
  obtain ⟨s, hmem, hne⟩ := hsucc
  refine ⟨s, hmem, ?_⟩
  have hs := hall s hmem
  simp only [terminalTags, List.mem_cons, List.mem_singleton,
    List.not_mem_nil, or_false] at hs
  rcases hs with h | h | h
  · exact absurd h hne
  · simp [h]
  · simp [h]

/-- Claim C3: `determineWorkflowStatus` coincides everywhere with the case
list of the specification (`deriveStatusSpec`): terminal execState
lower-cased first, then any active task, then the all-terminal task
verdict, then non-empty mixed tasks, then an active execState, then the
sticky previous running status, and idle last. -/
theorem c3_determine_status_matches_spec (execState : String)
    (tasks : List ExecutionTask) (previousStatus : ExecStatus)
    (hasExecutionId : Bool) :
    determineWorkflowStatus execState tasks previousStatus hasExecutionId =
      deriveStatusSpec execState tasks previousStatus hasExecutionId := by
  unfold determineWorkflowStatus deriveStatusSpec
  by_cases hterm : upper execState ∈ terminalTags
  · simp [hterm]
  · simp only [hterm, if_false]
    cases tasks with
    | nil => simp
    | cons t ts =>
      by_cases hact :
          ((t :: ts).map (fun x => upper (getCurrentState x.state))).any
            (fun s => decide (s ∈ activeTags)) = true
      · simp_all
      · by_cases hall :
            ((t :: ts).map (fun x => upper (getCurrentState x.state))).all
              (fun s => decide (s ∈ terminalTags)) = true
        · by_cases hsucc :
              ((t :: ts).map (fun x => upper (getCurrentState x.state))).all
                (fun s => decide (s = "SUCCESS")) = true
          · simp_all
          · have hfail := terminal_not_success_has_failed _ hall hsucc
            simp_all
        · by_cases hBp : (upper (getCurrentState t.state) ∈ terminalTags ∧
              ∀ a ∈ ts, upper (getCurrentState a.state) ∈ terminalTags)
          · exfalso
            apply hall
            simp only [List.map_cons, List.all_cons, Bool.and_eq_true,
              decide_eq_true_eq, List.all_eq_true, List.mem_map]
            refine ⟨hBp.1, ?_⟩
            intro s hs
            obtain ⟨a, ha, rfl⟩ := hs
            exact hBp.2 a ha
          · simp [hBp]

/-! ## Claim C1 -/

/-- A terminal status is never the idle one. -/
theorem isTerminal_ne_idle (s : ExecStatus) (h : isTerminalStatus s = true) :
    s ≠ .idle := by
  cases s <;> simp_all [isTerminalStatus]

/-- When the idle guard of `updateStates` fires, status and progress are
both left unchanged. -/
theorem updateStates_idle_guard (v : MonitorView) (p : ℚ) (cs : ConnState)
    (h1 : v.hasExecutionId = true) (h2 : v.executionData.isSome)
    (h3 : v.status ≠ .idle) (h4 : 0 < v.progress) :
    (updateStates v .idle p cs).status = v.status ∧
    (updateStates v .idle p cs).progress = v.progress := by
  unfold updateStates
  rw [if_pos ⟨rfl, h1, h2, h3, h4⟩]
  exact ⟨rfl, rfl⟩

/-- A view whose status became terminal by one `onMessage` step from a
non-terminal status has progress 100. -/
theorem onMessage_terminal_transition (v : MonitorView) (d : ExecutionData)
    (h0 : isTerminalStatus v.status = false)
    (h1 : isTerminalStatus (onMessage v d).status = true) :
    (onMessage v d).progress = 100 := by
  revert h1
  simp only [onMessage]
  split
  · -- stream_ended / NONE marker branch
    rw [if_neg (by simp [h0])]
    split
    · -- no running tasks
      split
      · -- all tasks successful
        intro _
        have hu := updateStates_terminal
          { v with executionData := some d, error := none } .success 100 .completed rfl
        rw [cleanupConnection_progress_of_terminal _ (by rw [hu.1]; rfl), hu.2.1]
      · split
        · -- some task failed
          intro _
          have hu := updateStates_terminal
            { v with executionData := some d, error := none } .failed 100 .completed rfl
          rw [cleanupConnection_progress_of_terminal _ (by rw [hu.1]; rfl), hu.2.1]
        · -- inconclusive tasks: status unchanged, stays non-terminal
          intro h1
          rw [(cleanupConnection_preserves _).1] at h1
          simp at h1
          rw [h1] at h0
          cases h0
    · -- running tasks: view unchanged before cleanup
      intro h1
      rw [(cleanupConnection_preserves _).1] at h1
      simp at h1
      rw [h1] at h0
      cases h0
  · -- connected marker skip and normal snapshot branches
    split
    · intro h1
      simp at h1
      rw [h1] at h0
      cases h0
    · split
      · -- terminal new status
        rename_i hterm
        intro _
        have hu := updateStates_terminal
          { v with executionData := some d, error := none } _ 100 .completed hterm
        rw [cleanupConnection_progress_of_terminal _ (by rw [hu.1]; exact hterm), hu.2.1]
      · -- non-terminal new status
        rename_i hnterm
        split
        · intro h1
          rcases updateStates_status_cases { v with executionData := some d, error := none }
            (determineWorkflowStatus (getCurrentState d.state) (extractTasks d)
              v.status v.hasExecutionId)
            (calculateProgress (extractTasks d) (getCurrentState d.state)) .connected with
            hc | hc
          · rw [hc] at h1
            exact absurd h1 hnterm
          · rw [hc.1] at h1
            simp at h1
            rw [h1] at h0
            cases h0
        · intro h1
          rcases updateStates_status_cases { v with executionData := some d, error := none }
            (determineWorkflowStatus (getCurrentState d.state) (extractTasks d)
              v.status v.hasExecutionId)
            (calculateProgress (extractTasks d) (getCurrentState d.state))
            ({ v with executionData := some d, error := none }).connectionState with
            hc | hc
          · rw [hc] at h1
            exact absurd h1 hnterm
          · rw [hc.1] at h1
            simp at h1
            rw [h1] at h0
            cases h0

/-- A view that is terminal with a completed connection and progress 100
keeps progress 100 across any `onMessage` step. -/
theorem onMessage_progress_frozen (v : MonitorView) (d : ExecutionData)
    (hterm : isTerminalStatus v.status = true)
    (hcs : v.connectionState = .completed) (hp : v.progress = 100) :
    (onMessage v d).progress = 100 := by
  simp only [onMessage]
  split
  · -- stream_ended / NONE marker branch: already terminal
    simp [cleanupConnection, hterm, hp]
  · split
    · -- connected marker skip
      simpa using hp
    · split
      · -- terminal new status
        rename_i ht
        have hu := updateStates_terminal
          { v with executionData := some d, error := none } _ 100 .completed ht
        rw [cleanupConnection_progress_of_terminal _ (by rw [hu.1]; exact ht), hu.2.1]
      · -- non-terminal new status: the frozen-progress rule applies
        rename_i ht
        split
        · rw [updateStates_progress_frozen _ _ _ _ (by simpa using hcs) (by simpa using hterm)]
          split
          · rfl
          · simpa using hp
        · rw [updateStates_progress_frozen _ _ _ _ (by simpa using hcs) (by simpa using hterm)]
          split
          · rfl
          · simpa using hp

/-- A terminal view with an execution id and positive progress is never
moved to idle by an `onMessage` step. -/
theorem onMessage_no_idle (v : MonitorView) (d : ExecutionData)
    (hterm : isTerminalStatus v.status = true)
    (hid : v.hasExecutionId = true) (hp : 0 < v.progress) :
    (onMessage v d).status ≠ .idle := by
  simp only [onMessage]
  split
  · -- stream_ended / NONE marker branch: already terminal
    rw [(cleanupConnection_preserves _).1]
    exact fun h => isTerminal_ne_idle v.status hterm (by simpa using h)
  · split
    · -- connected marker skip
      exact fun h => isTerminal_ne_idle v.status hterm (by simpa using h)
    · split
      · -- terminal new status
        rename_i ht
        have hu := updateStates_terminal
          { v with executionData := some d, error := none } _ 100 .completed ht
        rw [(cleanupConnection_preserves _).1, hu.1]
        exact isTerminal_ne_idle _ ht
      · -- non-terminal new status
        rename_i ht
        have hguard : ∀ cs : ConnState,
            (updateStates { v with executionData := some d, error := none }
              (determineWorkflowStatus (getCurrentState d.state) (extractTasks d)
                v.status v.hasExecutionId)
              (calculateProgress (extractTasks d) (getCurrentState d.state)) cs).status ≠
              .idle := by
          intro cs
          by_cases hns : determineWorkflowStatus (getCurrentState d.state) (extractTasks d)
              v.status v.hasExecutionId = .idle
          · rw [hns]
            rw [(updateStates_idle_guard _ _ _ (by simpa using hid) (by simp)
              (by simpa using isTerminal_ne_idle v.status hterm) (by simpa using hp)).1]
            exact fun h => isTerminal_ne_idle v.status hterm (by simpa using h)
          · rw [updateStates_status_of_ne_idle _ _ _ _ hns]
            exact hns
        split
        · exact hguard .connected
        · exact hguard _

/-- A concrete view that has reached the terminal status success with
progress 100 and a completed connection (the state the Reconciler is in
right after a terminal transition). -/
def c1View : MonitorView :=
  { status := .success, progress := 100, connectionState := .completed,
    executionData := some { state := .str "SUCCESS" }, error := none,
    retryCount := 0, hasExecutionId := true, sseOpen := true,
    retryTimerSet := false }

/-- A concrete stale in-flight snapshot reporting the execution as still
RUNNING with no tasks. -/
def c1Snapshot : ExecutionData := { state := .str "RUNNING" }

/-- Claim C1 counterexample: a stale RUNNING snapshot applied to a view
whose status is already terminal (success) overwrites the status with the
non-terminal running, so a terminal status is not preserved by
`onMessage` (the `updateStates` idle guard protects only idle, not
running). -/
theorem c1_counterexample :
    isTerminalStatus c1View.status = true ∧
    (onMessage c1View c1Snapshot).status = .running ∧
    isTerminalStatus (onMessage c1View c1Snapshot).status = false := by
  refine ⟨rfl, ?_, ?_⟩ <;> decide

/-- Claim C1 as amended: at every `onMessage` step that turns a
non-terminal status terminal, the progress is pinned to 100; a view that is
terminal with a completed connection and progress 100 keeps progress 100
across one further in-flight snapshot; and a terminal view with an
execution id and positive progress can never be overwritten with idle —
but, per the counterexample, a stale non-terminal snapshot can overwrite a
terminal status with running. -/
theorem c1_amended_terminal_behavior (v : MonitorView) (d : ExecutionData) :
    (isTerminalStatus v.status = false →
      isTerminalStatus (onMessage v d).status = true →
      (onMessage v d).progress = 100) ∧
    (isTerminalStatus v.status = true → v.connectionState = .completed →
      v.progress = 100 → (onMessage v d).progress = 100) ∧
    (isTerminalStatus v.status = true → v.hasExecutionId = true →
      0 < v.progress → (onMessage v d).status ≠ .idle) :=
  ⟨fun h0 h1 => onMessage_terminal_transition v d h0 h1,
   fun ht hc hp => onMessage_progress_frozen v d ht hc hp,
   fun ht hi hp => onMessage_no_idle v d ht hi hp⟩

/-- Witness for the amended C1 at the concrete terminal view and stale
snapshot: the progress stays 100 and the status does not become idle. -/
theorem c1_amended_terminal_behavior_witness :
    (onMessage c1View c1Snapshot).progress = 100 ∧
    (onMessage c1View c1Snapshot).status ≠ .idle := by
  refine ⟨?_, ?_⟩
  · exact (c1_amended_terminal_behavior c1View c1Snapshot).2.1 (by decide) rfl (by decide)
  · exact (c1_amended_terminal_behavior c1View c1Snapshot).2.2 (by decide) rfl (by decide)

/-! ## Claim C6 -/

/-- A concrete running, connected view with no prior retries. -/
def c6View : MonitorView :=
  { status := .running, progress := 40, connectionState := .connected,
    executionData := some { state := .str "RUNNING" }, error := none,
    retryCount := 0, hasExecutionId := true, sseOpen := true,
    retryTimerSet := false }

/-- Claim C6 counterexample: an http2-style transport failure at retry
count 0 — a channel error before `completed` with a non-terminal status —
schedules the reconnect after 100 milliseconds, strictly earlier than the
1000 × 2^0 milliseconds the claim requires for attempt N = 0. -/
theorem c6_counterexample :
    c6View.retryCount = 0 ∧
    (handleSSEError c6View .http2).retryDelayMs = some 100 ∧
    (100 : ℚ) < BASE_RETRY_DELAY * 2 ^ (0 : ℕ) := by
  refine ⟨rfl, rfl, ?_⟩
  norm_num [BASE_RETRY_DELAY]

/-- Claim C6 as amended: for a channel failure before `completed` with a
non-terminal, non-idle status, a non-transport failure with N prior
attempts (N below `MAX_RETRY_ATTEMPTS`) schedules the reconnect exactly
1000 × 2^N ms later and moves the view to retrying with the count bumped;
an http2-style transport failure with no prior attempts is instead retried
after only 100 ms; once `MAX_RETRY_ATTEMPTS` attempts have been consumed no
reconnect is scheduled, the view transitions to disconnected, and a
one-shot fallback status fetch is started (not a 5-second poll); the
companion polling-fallback variant installs the 5000 ms polling interval
exactly while its stream is failed and its status non-terminal. -/
theorem c6_amended_backoff (v : MonitorView) (k : ErrKind)
    (ss : StreamState) (st : String) :
    (v.status ≠ .idle → isTerminalStatus v.status = false →
      v.connectionState ≠ .completed → ¬(k = .http2 ∧ v.retryCount = 0) →
      v.retryCount < MAX_RETRY_ATTEMPTS →
      (handleSSEError v k).retryDelayMs =
          some (BASE_RETRY_DELAY * 2 ^ v.retryCount) ∧
        (handleSSEError v k).view.connectionState = .retrying ∧
        (handleSSEError v k).view.retryCount = v.retryCount + 1) ∧
    (v.status ≠ .idle → isTerminalStatus v.status = false →
      v.connectionState ≠ .completed → MAX_RETRY_ATTEMPTS ≤ v.retryCount →
      (handleSSEError v k).retryDelayMs = none ∧
        (handleSSEError v k).view.connectionState = .disconnected ∧
        (handleSSEError v k).statusFetchStarted = true) ∧
    (v.status ≠ .idle → isTerminalStatus v.status = false →
      v.connectionState ≠ .completed → k = .http2 → v.retryCount = 0 →
      (handleSSEError v k).retryDelayMs = some 100) ∧
    ((ss = .errorState ∨ ss = .closed) → st ≠ "idle" →
      st ∉ terminalTagsLower → pollFallbackTimer true ss st = some 5000) := by
  have hc := cleanupConnection_preserves v
  refine ⟨?_, ?_, ?_, ?_⟩
  · intro h1 h2 h3 h4 h5
    unfold handleSSEError
    rw [if_neg (by simp [hc.1, h1, h2]), if_neg (by simp [hc.2.1, h3]),
      if_neg (by simp only [hc.2.2.1]; exact h4),
      if_pos (by simp only [hc.2.2.1]; exact h5)]
    refine ⟨by simp [hc.2.2.1], rfl, by simp [hc.2.2.1]⟩
  · intro h1 h2 h3 h5
    unfold handleSSEError
    rw [if_neg (by simp [hc.1, h1, h2]), if_neg (by simp [hc.2.1, h3]),
      if_neg (by
        simp only [hc.2.2.1]
        rintro ⟨hk, h0⟩
        rw [h0] at h5
        exact absurd h5 (by decide)),
      if_neg (by simp only [hc.2.2.1]; exact Nat.not_lt.mpr h5)]
    exact ⟨rfl, rfl, rfl⟩
  · intro h1 h2 h3 hk h0
    unfold handleSSEError
    rw [if_neg (by simp [hc.1, h1, h2]), if_neg (by simp [hc.2.1, h3]),
      if_pos (by simp only [hc.2.2.1]; exact ⟨hk, h0⟩)]
  · intro hss h1 h2
    unfold pollFallbackTimer
    rw [if_pos ⟨rfl, hss, h1, h2⟩]

/-- Witness for the amended C6: a generic failure at retry count 2 on a
running connected view schedules the third backoff attempt, and the
polling-fallback predicate installs the 5000 ms interval in the error
state. -/
theorem c6_amended_backoff_witness :
    (handleSSEError
        { status := .running, progress := 40, connectionState := .connected,
          executionData := some { state := .str "RUNNING" }, error := none,
          retryCount := 2, hasExecutionId := true, sseOpen := true,
          retryTimerSet := false } .generic).retryDelayMs =
      some (BASE_RETRY_DELAY * 2 ^ (2 : ℕ)) ∧
    pollFallbackTimer true .errorState "running" = some 5000 := by
  have h := c6_amended_backoff
    { status := .running, progress := 40, connectionState := .connected,
      executionData := some { state := .str "RUNNING" }, error := none,
      retryCount := 2, hasExecutionId := true, sseOpen := true,
      retryTimerSet := false } .generic .errorState "running"
  exact ⟨(h.1 (by decide) rfl (by decide) (by simp) (by decide)).1,
    h.2.2.2 (Or.inl rfl) (by decide) (by decide)⟩

/-! ## Claim C8 -/

/-- A concrete running, connected view with an open channel and no prior
retries, receiving a malformed frame. -/
def c8View : MonitorView :=
  { status := .running, progress := 55, connectionState := .connected,
    executionData := some { state := .str "RUNNING" }, error := none,
    retryCount := 0, hasExecutionId := true, sseOpen := true,
    retryTimerSet := false }

/-- Claim C8 counterexample: in the part_000 Reconciler a malformed frame
is routed to the connection-error handler, which does tear the channel
down (the event source is closed) and sets the error to a reconnection
message, not a parse-error message. -/
theorem c8_counterexample :
    c8View.sseOpen = true ∧
    (onParseFailure c8View).view.sseOpen = false ∧
    (onParseFailure c8View).view.error ≠ some .parseErrorMsg := by
  refine ⟨rfl, rfl, ?_⟩
  decide

/-- Claim C8 as amended: only the polling-fallback Reconciler variant
tolerates a malformed frame — it sets its parse-error field, leaves the
channel untouched, keeps the status, and nudges progress to
min (progress + 2) 90; the part_000 variant instead treats the parse
failure as a connection error: with a running connected view it closes the
channel, schedules a backoff reconnect, and sets the error to a
reconnection message. -/
theorem c8_amended_parse_failure (vb : MonitorViewB) (v : MonitorView) :
    ((onParseFailureB vb).sseOpen = vb.sseOpen ∧
      (onParseFailureB vb).parsingError = some .parseErrorMsg ∧
      (onParseFailureB vb).progress = min (vb.progress + 2) 90 ∧
      (onParseFailureB vb).status = vb.status ∧
      (onParseFailureB vb).streamState = vb.streamState) ∧
    (v.status = .running → v.connectionState = .connected →
      v.retryCount < MAX_RETRY_ATTEMPTS →
      (onParseFailure v).view.sseOpen = false ∧
        (onParseFailure v).retryDelayMs =
          some (BASE_RETRY_DELAY * 2 ^ v.retryCount) ∧
        (onParseFailure v).view.error =
          some (.reconnectMsg (BASE_RETRY_DELAY * 2 ^ v.retryCount)
            (v.retryCount + 1))) := by
  refine ⟨⟨rfl, rfl, rfl, rfl, rfl⟩, ?_⟩
  intro h1 h2 h3
  have hc := cleanupConnection_preserves v
  unfold onParseFailure handleSSEError
  rw [if_neg (by simp [hc.1, h1, isTerminalStatus]), if_neg (by simp [hc.2.1, h2]),
    if_neg (by simp), if_pos (by simp only [hc.2.2.1]; exact h3)]
  refine ⟨?_, by simp [hc.2.2.1], by simp [hc.2.2.1]⟩
  unfold cleanupConnection
  rw [if_neg (by simp [h1, isTerminalStatus])]

/-- Witness for the amended C8 at concrete views of both variants. -/
theorem c8_amended_parse_failure_witness :
    (onParseFailureB
      { status := "running", progress := 50, parsingError := none,
        error := none, streamState := .openState, reconnectAttempt := 0,
        sseOpen := true, executionData := none }).parsingError =
      some .parseErrorMsg ∧
    (onParseFailure c8View).view.sseOpen = false := by
  have h := c8_amended_parse_failure
    { status := "running", progress := 50, parsingError := none,
      error := none, streamState := .openState, reconnectAttempt := 0,
      sseOpen := true, executionData := none } c8View
  exact ⟨h.1.2.1, (h.2 rfl rfl (by decide)).1⟩

end KestraMonitor
